import Mathlib

/-!
Shallow embedding of the `pandas-vet` DataFrame accessor
(`src/pandas_vet/DataFrameVet.py`) together with models of the host
tabular engine's primitives (pandas, an external collaborator) and of the
repository helpers that live outside `src/` (`run_checks.py`, `utils.py`,
`timer.py`, `options.py`), which are modelled from the specification.

The working dataset is a table of rows over named columns; cells are
`Option Int`, `Option.none` standing for a null (NaN).  Python values that
flow through the accessor (a DataFrame, a Series obtained by selecting a
single column, or a plain string) are collected in the `Data` type.
Side effects (printing, plotting, file export) are reified as a list of
`Output` events, and Python exceptions as the `VetError` type inside
`Except`.
-/

namespace PandasVet

/-- A cell of the table: `Option.none` models a null (NaN). -/
abbrev Cell := Option Int

/-- The working dataset: named columns and rows of cells. -/
structure DataFrame where
  cols : List String
  rows : List (List Cell)
deriving DecidableEq, Repr

/-- A pandas Series, as obtained by selecting a single column. -/
structure Series where
  name : String
  vals : List Cell
deriving DecidableEq, Repr

/-- A Python value flowing through the accessor: a DataFrame, a Series, or
a plain string (the `print` method may route a string through the check
dispatcher). -/
inductive Data where
  | frame (df : DataFrame)
  | series (s : Series)
  | str (s : String)
deriving DecidableEq, Repr

/-- The `subset` argument of the accessor methods: Python `None`, a single
column name, or a list of column names. -/
inductive Subset where
  | none
  | col (name : String)
  | cols (names : List String)
deriving DecidableEq, Repr

/-- Python truthiness of the `subset` argument: `None`, the empty string
and the empty list are falsy. -/
def Subset.truthy : Subset → Bool
  | Subset.none => false
  | Subset.col s => !(s == "")
  | Subset.cols l => !l.isEmpty

/-- Python `len(subset)`: `None` has no `len` (models the `TypeError`). -/
def Subset.pyLen : Subset → Option Nat
  | Subset.none => Option.none
  | Subset.col s => some s.length
  | Subset.cols l => some l.length

/-- Join a list of strings, wrapping each element in `pre`/`post` and
separating by `sep` (used to model Python `str` of strings and lists). -/
def joinWith (pre post sep : String) : List String → String
  | [] => ""
  | [x] => pre ++ x ++ post
  | x :: y :: rest => pre ++ x ++ post ++ sep ++ joinWith pre post sep (y :: rest)

/-- Python `str()` of a subset value, as it appears interpolated into
f-string labels: a bare column name, or a bracketed quoted list. -/
def Subset.pyStr : Subset → String
  | Subset.none => "None"
  | Subset.col s => s
  | Subset.cols l => "[" ++ joinWith "\x27" "\x27" ", " l ++ "]"

/-- Python truthiness of an optional string (e.g. `check_name`): `None`
and the empty string are falsy. -/
def strOptTruthy : Option String → Bool
  | Option.none => false
  | some s => !(s == "")

/-- Python exceptions raised by the accessor. -/
inductive VetError where
  | keyError (k : String)
  | typeError (msg : String)
  | attributeError (msg : String)
  | indexError (msg : String)
  | raised (cls : String) (msg : String)
deriving DecidableEq, Repr

/-- A reportable value computed by a check function (the scalar, list or
table-like result that gets displayed). -/
inductive RValue where
  | data (d : Data)
  | nat (n : Nat)
  | natTuple (l : List Nat)
  | strList (l : List String)
  | strPairs (l : List (String × String))
  | pairs (l : List (String × Nat))
  | vals (l : List Cell)
  | valCounts (l : List (Int × Nat))
  | rowCounts (l : List (List Cell × Nat))
  | rstr (s : String)
deriving DecidableEq, Repr

/-- Whether a reportable value is a pandas object (DataFrame/Series), as
tested by `isinstance(na_counts, (pd.DataFrame, pd.Series))` in `nnulls`. -/
def RValue.isPandasObj : RValue → Bool
  | RValue.data (Data.frame _) => true
  | RValue.data (Data.series _) => true
  | RValue.pairs _ => true
  | _ => false

/-- Reified side effects of the accessor: console prints, labelled
displays, plots, and file-export events. -/
inductive Output where
  | print (s : String)
  | display (label : Option String) (value : RValue)
  | histPlot (d : Data)
  | suptitle (t : String)
  | plotOut (d : Data) (title : String)
  | infoDisplay (d : Data)
  | writeFile (kind : String) (path : String) (d : Data)
deriving DecidableEq, Repr

/-- Values of the cosmetic configuration options. -/
inductive OptVal where
  | b (v : Bool)
  | n (v : Nat)
  | s (v : String)
deriving DecidableEq, Repr

/-- Modelled from the spec: the process-wide cosmetic configuration
registry (pandas `_config` holding the registered `vet.*` options and
their current values). `registered` is what
`pd._config.config._select_options("vet")` returns. -/
structure Options where
  registered : List String
  values : List (String × OptVal)
deriving DecidableEq, Repr

/-- Look up the current value of an option. -/
def Options.lookup (o : Options) (k : String) : Option OptVal :=
  (o.values.find? (fun p => p.1 == k)).map (fun p => p.2)

/-- Modelled from the spec: `pd.set_option` on the vet namespace — record
the new value for a registered option. -/
def Options.setOption (o : Options) (k : String) (v : OptVal) : Options :=
  ⟨o.registered, (k, v) :: o.values⟩

/-- Modelled from the spec: `_initialize_format_options` from
`options.py` — registers the cosmetic options (at least decorative-symbol
display and numeric precision) with their defaults. -/
def defaultOptions : Options :=
  ⟨["vet.use_emojis", "vet.precision"],
   [("vet.use_emojis", OptVal.b true), ("vet.precision", OptVal.n 2)]⟩

/-- Whether decorative symbols are currently rendered. -/
def Options.emojisOn (o : Options) : Bool :=
  !(o.lookup "vet.use_emojis" == some (OptVal.b false))

/-- Decorative characters (symbols/emoji) are those outside the basic
planes of ordinary text; used by the plain-display filter. -/
def isDecorative (c : Char) : Bool :=
  decide (0x2000 ≤ c.val)

/-- Strip decorative symbols from a string. -/
def stripEmojis (s : String) : String :=
  ⟨s.data.filter (fun c => !isDecorative c)⟩

/-- Modelled from the spec: `_filter_emojis` from `utils.py` — strip
decorative symbols when the plain display mode is configured. -/
def _filter_emojis (o : Options) (s : String) : String :=
  if o.emojisOn then s else stripEmojis s

/-- Modelled from the spec: `_format_fail_message` from `utils.py` — wrap
a message with a failure decoration, honouring the symbol filter. -/
def _format_fail_message (o : Options) (m : String) : String :=
  _filter_emojis o ("🛑" ++ m ++ "🛑")

/-- Modelled from the spec: `_format_success_message` from `utils.py` —
wrap a message with a success decoration, honouring the symbol filter. -/
def _format_success_message (o : Options) (m : String) : String :=
  _filter_emojis o ("🟢" ++ m ++ "🟢")

/-- Index of a column name in the frame's column list. -/
def DataFrame.colIdx (df : DataFrame) (name : String) : Option Nat :=
  df.cols.findIdx? (fun c => c == name)

/-- The cells of one column (a missing cell in a short row reads as null). -/
def DataFrame.getCol (df : DataFrame) (name : String) : Option (List Cell) :=
  (df.colIdx name).map (fun i => df.rows.map (fun r => r.getD i Option.none))

/-- Select columns of a frame (pandas `df[[...]]`), `KeyError` if one is
missing. -/
def selectCols (df : DataFrame) (names : List String) : Except VetError DataFrame :=
  match names.mapM df.getCol with
  | Option.none => Except.error (VetError.keyError (Subset.pyStr (Subset.cols names)))
  | some colvals =>
      Except.ok ⟨names, (List.range df.rows.length).map
        (fun r => colvals.map (fun col => col.getD r Option.none))⟩

/-- Python subscript `data[subset]` on a value (pandas column selection);
selecting on a Series or a string is an error, as in the host engine. -/
def selectData (d : Data) (subset : Subset) : Except VetError Data :=
  match d, subset with
  | d, Subset.none => Except.ok d
  | Data.frame df, Subset.col n =>
      match df.getCol n with
      | some v => Except.ok (Data.series ⟨n, v⟩)
      | Option.none => Except.error (VetError.keyError n)
  | Data.frame df, Subset.cols l => (selectCols df l).map Data.frame
  | Data.series _, _ => Except.error (VetError.keyError (Subset.pyStr subset))
  | Data.str _, _ => Except.error (VetError.typeError "string indices must be integers")

/-- Modelled from the spec: `_modify_data` from `run_checks.py` — narrow
the data to the subset columns (when the subset is truthy), then apply the
user transform; never mutates, only returns the derived value. -/
def _modify_data (d : Data) (fn : Data → Data) (subset : Subset) : Except VetError Data :=
  if subset.truthy then (selectData d subset).map fn else Except.ok (fn d)

/-- Modelled from the spec: `_check_data` from `run_checks.py` — resolve
the data via `_modify_data`, apply the check function, and display the
result under the (possibly absent) check-name label. -/
def _check_data (d : Data) (check_fn : Data → Except VetError RValue)
    (modify_fn : Data → Data) (subset : Subset) (check_name : Option String) :
    Except VetError (List Output) := do
  let resolved ← _modify_data d modify_fn subset
  let r ← check_fn resolved
  pure [Output.display check_name r]

/-- Number of non-null cells among a list of cells. -/
def nonNullCount (l : List Cell) : Nat := l.countP (fun c => c.isSome)

/-- The cells of column `i` of a frame, by position. -/
def DataFrame.colAt (df : DataFrame) (i : Nat) : List Cell :=
  df.rows.map (fun r => r.getD i Option.none)

/-- Per-column null counts of a frame (pandas `df.isna().sum()`). -/
def isnaSumFrame (df : DataFrame) : List (String × Nat) :=
  df.cols.enum.map (fun p => (p.2, (df.colAt p.1).countP (fun c => c.isNone)))

/-- Number of rows of a frame containing a null in any column
(pandas `df.isna().any(axis=1).sum()`). -/
def rowsWithAnyNull (df : DataFrame) : Nat :=
  (df.rows.filter
    (fun r => (List.range df.cols.length).any (fun i => (r.getD i Option.none).isNone))).length

/-- Pandas `data.isna().sum()` on any value: per-column counts for a
frame, a scalar for a series, an attribute error for a string. -/
def isnaSum (d : Data) : Except VetError RValue :=
  match d with
  | Data.frame df => Except.ok (RValue.pairs (isnaSumFrame df))
  | Data.series s => Except.ok (RValue.nat (s.vals.countP (fun c => c.isNone)))
  | Data.str _ => Except.error (VetError.attributeError "str object has no attribute isna")

/-- First-occurrence deduplication, accumulator of already-seen values. -/
def firstDedupAux {α : Type} [DecidableEq α] (seen : List α) : List α → List α
  | [] => []
  | x :: xs => if x ∈ seen then firstDedupAux seen xs else x :: firstDedupAux (x :: seen) xs

/-- Deduplicate a list keeping the first occurrence of each value, as the
host engine's `unique` does. -/
def firstDedup {α : Type} [DecidableEq α] (l : List α) : List α := firstDedupAux [] l

/-- Pandas `duplicated(keep="first")`: one flag per row, true when the row
is identical to an earlier row. -/
def dupFlags {α : Type} [DecidableEq α] (l : List α) : List Bool :=
  l.enum.map (fun p => decide (p.2 ∈ l.take p.1))

/-- Pandas `duplicated().sum()`: the number of rows identical to an
earlier row. -/
def dupCount {α : Type} [DecidableEq α] (l : List α) : Nat :=
  (dupFlags l).count true

/-- Python `len` of a value: row count of a frame, length of a series or
string. -/
def pyLenData : Data → Nat
  | Data.frame df => df.rows.length
  | Data.series s => s.vals.length
  | Data.str s => s.length

/-- Insert a keyed count into a list sorted by descending count. -/
def insertByCount (x : Int × Nat) : List (Int × Nat) → List (Int × Nat)
  | [] => [x]
  | y :: ys => if y.2 ≤ x.2 then x :: y :: ys else y :: insertByCount x ys

/-- Sort keyed counts by descending count (host engine's `value_counts`
ordering). -/
def sortByCountDesc : List (Int × Nat) → List (Int × Nat)
  | [] => []
  | x :: xs => insertByCount x (sortByCountDesc xs)

/-- Counts of the distinct non-null values of a series, most frequent
first (pandas `value_counts`). -/
def seriesValueCounts (vals : List Cell) : List (Int × Nat) :=
  sortByCountDesc ((firstDedup (vals.filterMap id)).map (fun v => (v, vals.count (some v))))

/-- Insert a row-keyed count into a list sorted by descending count. -/
def insertRowCount (x : List Cell × Nat) : List (List Cell × Nat) → List (List Cell × Nat)
  | [] => [x]
  | y :: ys => if y.2 ≤ x.2 then x :: y :: ys else y :: insertRowCount x ys

/-- Sort row-keyed counts by descending count. -/
def sortRowCountsDesc : List (List Cell × Nat) → List (List Cell × Nat)
  | [] => []
  | x :: xs => insertRowCount x (sortRowCountsDesc xs)

/-- Counts of the distinct fully-non-null rows of a frame, most frequent
first (pandas `DataFrame.value_counts`). -/
def rowValueCounts (df : DataFrame) : List (List Cell × Nat) :=
  sortRowCountsDesc
    ((firstDedup (df.rows.filter (fun r => r.all (fun c => c.isSome)))).map
      (fun r => (r, df.rows.count r)))

/-- A plain rendering of a reportable value, for the inline prints. -/
def rvStr : RValue → String
  | RValue.nat n => toString n
  | RValue.natTuple l => "(" ++ joinWith "" "" ", " (l.map toString) ++ ")"
  | RValue.rstr s => s
  | RValue.strList l => "[" ++ joinWith "\x27" "\x27" ", " l ++ "]"
  | RValue.strPairs l => joinWith "" "" "; " (l.map (fun p => p.1 ++ " " ++ p.2))
  | RValue.pairs l => joinWith "" "" "; " (l.map (fun p => p.1 ++ " " ++ toString p.2))
  | RValue.vals l => "[" ++ joinWith "" "" ", " (l.map (fun c => match c with | some i => toString i | Option.none => "NaN")) ++ "]"
  | RValue.valCounts l => joinWith "" "" "; " (l.map (fun p => toString p.1 ++ " " ++ toString p.2))
  | RValue.rowCounts l => joinWith "" "" "; " (l.map (fun p => toString p.2))
  | RValue.data _ => "<data>"

/-- Python `endswith` on strings, as a suffix test on the character
sequence. -/
def pyEndsWith (s suffix : String) : Bool := suffix.data.isSuffixOf s.data

/-- Resolve the source's `check_name if check_name else default` idiom:
keep a truthy check name, otherwise use the generated default label. -/
def orLabel (check_name : Option String) (dflt : String) : Option String :=
  if strOptTruthy check_name then check_name else some dflt

/-- The identity transform, the default `fn=lambda df: df` argument. -/
def idD : Data → Data := fun d => d

/-! ## Check functions (the fixed `check_fn` lambdas of the accessor
methods, built on the host engine's primitives) -/

/-- Check function `lambda df: df.describe(**kwargs)` — summary statistics (modelled as
per-column non-null counts, the host engine's summary being external). -/
def describeCheck : Data → Except VetError RValue
  | Data.frame df => Except.ok (RValue.pairs (df.cols.enum.map (fun p => (p.2, nonNullCount (df.colAt p.1)))))
  | Data.series s => Except.ok (RValue.pairs [(s.name, nonNullCount s.vals)])
  | Data.str _ => Except.error (VetError.attributeError "str object has no attribute describe")

/-- Check function `lambda df: df.columns.tolist()`. -/
def columnsCheck : Data → Except VetError RValue
  | Data.frame df => Except.ok (RValue.strList df.cols)
  | Data.series _ => Except.error (VetError.attributeError "Series object has no attribute columns")
  | Data.str _ => Except.error (VetError.attributeError "str object has no attribute columns")

/-- Check function `lambda df: df.dtypes` (all cells are integers in the embedding). -/
def dtypesCheck : Data → Except VetError RValue
  | Data.frame df => Except.ok (RValue.strPairs (df.cols.map (fun c => (c, "int64"))))
  | Data.series _ => Except.ok (RValue.rstr "int64")
  | Data.str _ => Except.error (VetError.attributeError "str object has no attribute dtypes")

/-- The default check: the data itself is the reportable value. -/
def evaluateCheck : Data → Except VetError RValue :=
  fun d => Except.ok (RValue.data d)

/-- Check function `lambda df: df.head(n)`. -/
def headCheck (n : Nat) : Data → Except VetError RValue
  | Data.frame df => Except.ok (RValue.data (Data.frame ⟨df.cols, df.rows.take n⟩))
  | Data.series s => Except.ok (RValue.data (Data.series ⟨s.name, s.vals.take n⟩))
  | Data.str _ => Except.error (VetError.attributeError "str object has no attribute head")

/-- Check function `lambda df: df.tail(n)`. -/
def tailCheck (n : Nat) : Data → Except VetError RValue
  | Data.frame df => Except.ok (RValue.data (Data.frame ⟨df.cols, df.rows.drop (df.rows.length - n)⟩))
  | Data.series s => Except.ok (RValue.data (Data.series ⟨s.name, s.vals.drop (s.vals.length - n)⟩))
  | Data.str _ => Except.error (VetError.attributeError "str object has no attribute tail")

/-- Check function `lambda df: df.memory_usage(**kwargs)` (8 bytes per cell model). -/
def memoryUsageCheck : Data → Except VetError RValue
  | Data.frame df => Except.ok (RValue.pairs (("Index", 8 * df.rows.length) :: df.cols.map (fun c => (c, 8 * df.rows.length))))
  | Data.series s => Except.ok (RValue.nat (8 * s.vals.length))
  | Data.str _ => Except.error (VetError.attributeError "str object has no attribute memory_usage")

/-- Check function `lambda df: df.shape[1]` (a Series shape is a 1-tuple, so indexing
it at 1 is an index error, as in the host engine). -/
def ncolsCheck : Data → Except VetError RValue
  | Data.frame df => Except.ok (RValue.nat df.cols.length)
  | Data.series _ => Except.error (VetError.indexError "tuple index out of range")
  | Data.str _ => Except.error (VetError.attributeError "str object has no attribute shape")

/-- Check function `lambda df: df.shape[0]`. -/
def nrowsCheck : Data → Except VetError RValue
  | Data.frame df => Except.ok (RValue.nat df.rows.length)
  | Data.series s => Except.ok (RValue.nat s.vals.length)
  | Data.str _ => Except.error (VetError.attributeError "str object has no attribute shape")

/-- Check function `lambda df: df.duplicated(**kwargs).sum()` with the default
`keep="first"`. -/
def ndupsCheck : Data → Except VetError RValue
  | Data.frame df => Except.ok (RValue.nat (dupCount df.rows))
  | Data.series s => Except.ok (RValue.nat (dupCount s.vals))
  | Data.str _ => Except.error (VetError.attributeError "str object has no attribute duplicated")

/-- Check function `lambda df: df.nunique(**kwargs)` (distinct non-null values). -/
def nuniqueCheck : Data → Except VetError RValue
  | Data.frame df => Except.ok (RValue.pairs (df.cols.enum.map (fun p => (p.2, (firstDedup ((df.colAt p.1).filterMap id)).length))))
  | Data.series s => Except.ok (RValue.nat (firstDedup (s.vals.filterMap id)).length)
  | Data.str _ => Except.error (VetError.attributeError "str object has no attribute nunique")

/-- Check function `lambda df: df.shape`. -/
def shapeCheck : Data → Except VetError RValue
  | Data.frame df => Except.ok (RValue.natTuple [df.rows.length, df.cols.length])
  | Data.series s => Except.ok (RValue.natTuple [s.vals.length])
  | Data.str _ => Except.error (VetError.attributeError "str object has no attribute shape")

/-- Check function `lambda s: s.unique().tolist()` (defined on a Series only). -/
def uniqueCheck : Data → Except VetError RValue
  | Data.series s => Except.ok (RValue.vals (firstDedup s.vals))
  | Data.frame _ => Except.error (VetError.attributeError "DataFrame object has no attribute unique")
  | Data.str _ => Except.error (VetError.attributeError "str object has no attribute unique")

/-- Check function `lambda df: df.value_counts(**kwargs).head(max_rows)`. -/
def valueCountsCheck (max_rows : Nat) : Data → Except VetError RValue
  | Data.frame df => Except.ok (RValue.rowCounts ((rowValueCounts df).take max_rows))
  | Data.series s => Except.ok (RValue.valCounts ((seriesValueCounts s.vals).take max_rows))
  | Data.str _ => Except.error (VetError.attributeError "str object has no attribute value_counts")

/-! ## The assertion condition -/

/-- The polymorphic `condition` argument of `assert_data`: a callable
predicate (carrying the source text that `_lambda_to_string` recovers), a
textual expression (carrying the semantics the host `eval` gives it with
the data bound as `df`), or a value of any other, unsupported type. -/
inductive Condition where
  | callable (f : Data → Bool) (src : String)
  | strExpr (s : String) (sem : Data → Bool)
  | other (typeName : String)

/-- Modelled from the spec: `_lambda_to_string` from `utils.py` — turn a
callable into a readable string label; in the embedding the callable
carries its own source text. -/
def _lambda_to_string : Condition → String
  | Condition.callable _ src => src
  | Condition.strExpr s _ => s
  | Condition.other t => t

/-- Lines 41–47 of `assert_data`: evaluate the condition on the resolved
data and pair the boolean result with the condition's textual
representation; an unsupported type is a `TypeError`. -/
def Condition.evalOn : Condition → Data → Except VetError (Bool × String)
  | Condition.callable f src, d => Except.ok (f d, src)
  | Condition.strExpr s sem, d => Except.ok (sem d, s)
  | Condition.other t, _ =>
      Except.error (VetError.typeError ("Argument \x60condition\x60 is of unexpected type " ++ t))

/-- The source's default `pass_message`. -/
def passMessageDefault : String := " ✔️ Assertion passed "

/-- The source's default `fail_message`. -/
def failMessageDefault : String := " ㄨ Assertion failed "

/-- The source's default `exception_class`, pandas' `DataError`. -/
def dataErrorClass : String := "DataError"

/-- Line 40 of `assert_data`:
`data = self._obj[subset] if subset else self._obj`. -/
def assertResolve (df : DataFrame) (subset : Subset) : Except VetError Data :=
  if subset.truthy then selectData (Data.frame df) subset else Except.ok (Data.frame df)

/-- The effect part of `assert_data` (lines 40–54): resolve the subset,
evaluate the condition, raise or print the fail message on a falsy
result, and print the pass message when verbose. -/
def assertBody (df : DataFrame) (condition : Condition) (subset : Subset)
    (exception_class : String) (pass_message fail_message : String)
    (raise_exception verbose : Bool) (opts : Options) :
    Except VetError (List Output) := do
  let data ← assertResolve df subset
  let rc ← condition.evalOn data
  let failOuts ←
    if !rc.1 then
      if raise_exception then
        Except.error (VetError.raised exception_class (fail_message ++ ": " ++ rc.2))
      else
        pure [Output.print (_format_fail_message opts fail_message ++ ": " ++ rc.2)]
    else pure []
  let passOuts :=
    if verbose then [Output.print (_format_success_message opts pass_message ++ ": " ++ rc.2)]
    else []
  pure (failOuts ++ passOuts)

/-! ## The accessor surface (`DataFrameVet`): each method performs its
effects and then returns `self._obj` unchanged. -/

/-- Python `startswith`, as a prefix test on the character sequence. -/
def pyStartsWith (s pre : String) : Bool := pre.data.isPrefixOf s.data

/-- Line 18: fully qualify an option name with the `vet.` namespace. -/
def qualifyOpt (arg : String) : String :=
  if pyStartsWith arg "vet." then arg else "vet." ++ arg

/-- Line 22: the unknown-option error message, listing the valid names. -/
def unknownOptionMsg (q : String) (reg : List String) : String :=
  "No Pandas Vet option for " ++ q ++ ". Available options: [" ++
    joinWith "\x27" "\x27" ", " reg ++ "]"

/-- Method `set_format`: qualify each option name with the `vet.` namespace,
reject unknown options with an `AttributeError` listing the valid names,
set the recognized ones. -/
def set_format_go (opts : Options) : List (String × OptVal) → Except VetError Options
  | [] => Except.ok opts
  | (arg, value) :: rest =>
      if qualifyOpt arg ∈ opts.registered then
        set_format_go (opts.setOption (qualifyOpt arg) value) rest
      else
        Except.error (VetError.attributeError (unknownOptionMsg (qualifyOpt arg) opts.registered))

/-- The `set_format` accessor method. -/
def set_format (df : DataFrame) (kwargs : List (String × OptVal)) (opts : Options) :
    Except VetError (Options × DataFrame) :=
  (set_format_go opts kwargs).map (fun o => (o, df))

/-- The `reset_format` accessor method: re-initialize all Pandas Vet
formatting options. -/
def reset_format (df : DataFrame) : Options × DataFrame :=
  (defaultOptions, df)

/-- The `assert_data` accessor method. -/
def assert_data (df : DataFrame) (condition : Condition) (subset : Subset)
    (exception_class : String) (pass_message fail_message : String)
    (raise_exception verbose : Bool) (opts : Options) :
    Except VetError (List Output × DataFrame) :=
  (assertBody df condition subset exception_class pass_message fail_message
      raise_exception verbose opts).map (fun outs => (outs, df))

/-- The `describe` accessor method. -/
def describe (df : DataFrame) (fn : Data → Data) (subset : Subset) (check_name : Option String) :
    Except VetError (List Output × DataFrame) :=
  (_check_data (Data.frame df) describeCheck fn subset check_name).map (fun outs => (outs, df))

/-- The `columns` accessor method. -/
def columns (df : DataFrame) (fn : Data → Data) (subset : Subset) (check_name : Option String) :
    Except VetError (List Output × DataFrame) :=
  (_check_data (Data.frame df) columnsCheck fn subset check_name).map (fun outs => (outs, df))

/-- The `dtypes` accessor method. -/
def dtypes (df : DataFrame) (fn : Data → Data) (subset : Subset) (check_name : Option String) :
    Except VetError (List Output × DataFrame) :=
  (_check_data (Data.frame df) dtypesCheck fn subset check_name).map (fun outs => (outs, df))

/-- The `evaluate` accessor method. -/
def evaluate (df : DataFrame) (fn : Data → Data) (subset : Subset) (check_name : Option String) :
    Except VetError (List Output × DataFrame) :=
  (_check_data (Data.frame df) evaluateCheck fn subset check_name).map (fun outs => (outs, df))

/-- The `head` accessor method. -/
def head (df : DataFrame) (n : Nat) (fn : Data → Data) (subset : Subset) (check_name : Option String) :
    Except VetError (List Output × DataFrame) :=
  (_check_data (Data.frame df) (headCheck n) fn subset
      (orLabel check_name ("⬆️ First " ++ toString n ++ " rows"))).map (fun outs => (outs, df))

/-- The effect part of `hist`: plot a histogram of the resolved data and
set the suptitle (`len(subset)` fails on a `None` subset as in Python). -/
def histBody (df : DataFrame) (fn : Data → Data) (subset : Subset) (check_name : Option String) :
    Except VetError (List Output) := do
  let d ← _modify_data (Data.frame df) fn subset
  let title ←
    if strOptTruthy check_name then pure (check_name.getD "")
    else match subset.pyLen with
      | some 1 => pure "Distribution"
      | some _ => pure "Distributions"
      | Option.none => Except.error (VetError.typeError "object of type NoneType has no len")
  pure [Output.histPlot d, Output.suptitle title]

/-- The `hist` accessor method. -/
def hist (df : DataFrame) (fn : Data → Data) (subset : Subset) (check_name : Option String) :
    Except VetError (List Output × DataFrame) :=
  (histBody df fn subset check_name).map (fun outs => (outs, df))

/-- The effect part of `info`: a blank line, the filtered check name,
then the host engine's info report of the resolved data. -/
def infoBody (df : DataFrame) (fn : Data → Data) (subset : Subset) (check_name : String)
    (opts : Options) : Except VetError (List Output) := do
  let d ← _modify_data (Data.frame df) fn subset
  pure [Output.print "", Output.print (_filter_emojis opts check_name), Output.infoDisplay d]

/-- The `info` accessor method. -/
def info (df : DataFrame) (fn : Data → Data) (subset : Subset) (check_name : String)
    (opts : Options) : Except VetError (List Output × DataFrame) :=
  (infoBody df fn subset check_name opts).map (fun outs => (outs, df))

/-- The `memory_usage` accessor method. -/
def memory_usage (df : DataFrame) (fn : Data → Data) (subset : Subset) (check_name : Option String) :
    Except VetError (List Output × DataFrame) :=
  (_check_data (Data.frame df) memoryUsageCheck fn subset check_name).map (fun outs => (outs, df))

/-- The `ncols` accessor method. -/
def ncols (df : DataFrame) (fn : Data → Data) (subset : Subset) (check_name : Option String) :
    Except VetError (List Output × DataFrame) :=
  (_check_data (Data.frame df) ncolsCheck fn subset check_name).map (fun outs => (outs, df))

/-- The `ndups` accessor method; the default label embeds the subset
name when a subset is given. -/
def ndups (df : DataFrame) (fn : Data → Data) (subset : Subset) (check_name : Option String) :
    Except VetError (List Output × DataFrame) :=
  (_check_data (Data.frame df) ndupsCheck fn subset
      (orLabel check_name
        (if subset.truthy then "👯‍♂️ Rows with duplication in " ++ subset.pyStr
         else "👯‍♂️ Duplicated rows"))).map (fun outs => (outs, df))

/-- The effect part of `nnulls` (lines 156–174): a blank print, then per
`by_column` either the per-column null counts or the count of rows with
any null, displayed as a pandas object or printed inline. -/
def nnullsBody (df : DataFrame) (fn : Data → Data) (subset : Subset) (by_column : Bool)
    (check_name : Option String) (opts : Options) : Except VetError (List Output) := do
  let data ← _modify_data (Data.frame df) fn subset
  let na_counts ←
    match data, by_column with
    | Data.frame f, false => pure (RValue.nat (rowsWithAnyNull f))
    | d, _ => isnaSum d
  if !(strOptTruthy check_name) then
    if na_counts.isPandasObj then
      pure [Output.print "",
        Output.display
          (some (if subset.truthy then "👻 Rows with NaNs in " ++ subset.pyStr
                 else "👻 Rows with NaNs")) na_counts]
    else
      pure [Output.print "",
        Output.print
          (_filter_emojis opts
            (if subset.truthy then "👻 Rows with NaNs in " ++ subset.pyStr ++ ": "
             else "👻 Rows with NaNs: ") ++ rvStr na_counts ++ " out of " ++
            toString (pyLenData data))]
  else
    pure [Output.print "",
      Output.print (_filter_emojis opts (check_name.getD "") ++ ": " ++ rvStr na_counts)]

/-- The `nnulls` accessor method. -/
def nnulls (df : DataFrame) (fn : Data → Data) (subset : Subset) (by_column : Bool)
    (check_name : Option String) (opts : Options) :
    Except VetError (List Output × DataFrame) :=
  (nnullsBody df fn subset by_column check_name opts).map (fun outs => (outs, df))

/-- The `nrows` accessor method. -/
def nrows (df : DataFrame) (fn : Data → Data) (subset : Subset) (check_name : Option String) :
    Except VetError (List Output × DataFrame) :=
  (_check_data (Data.frame df) nrowsCheck fn subset check_name).map (fun outs => (outs, df))

/-- The `nunique` accessor method. -/
def nunique (df : DataFrame) (column : Subset) (fn : Data → Data) (check_name : Option String) :
    Except VetError (List Output × DataFrame) :=
  (_check_data (Data.frame df) nuniqueCheck fn column
      (orLabel check_name ("🌟 Unique values in " ++ column.pyStr))).map (fun outs => (outs, df))

/-- The effect part of `plot`: plot the resolved data, titling it with
the user's `title` kwarg or else the filtered check name. -/
def plotBody (df : DataFrame) (fn : Data → Data) (subset : Subset) (check_name : String)
    (titleKw : Option String) (opts : Options) : Except VetError (List Output) := do
  let d ← _modify_data (Data.frame df) fn subset
  pure [Output.plotOut d
    (match titleKw with
     | some t => t
     | Option.none => _filter_emojis opts check_name)]

/-- The `plot` accessor method. -/
def plot (df : DataFrame) (fn : Data → Data) (subset : Subset) (check_name : String)
    (titleKw : Option String) (opts : Options) :
    Except VetError (List Output × DataFrame) :=
  (plotBody df fn subset check_name titleKw opts).map (fun outs => (outs, df))

/-- The effect part of `print`: display the given text, or the first
`max_rows` rows of the dataset when no truthy text is given. -/
def printBody (df : DataFrame) (text : Option String) (fn : Data → Data) (subset : Subset)
    (check_name : Option String) (max_rows : Nat) : Except VetError (List Output) :=
  _check_data
    (if strOptTruthy text then Data.str (text.getD "") else Data.frame df)
    (if strOptTruthy text then evaluateCheck else headCheck max_rows)
    fn subset check_name

/-- The `print` accessor method. -/
def print (df : DataFrame) (text : Option String) (fn : Data → Data) (subset : Subset)
    (check_name : Option String) (max_rows : Nat) :
    Except VetError (List Output × DataFrame) :=
  (printBody df text fn subset check_name max_rows).map (fun outs => (outs, df))

/-- The `shape` accessor method. -/
def shape (df : DataFrame) (fn : Data → Data) (subset : Subset) (check_name : Option String) :
    Except VetError (List Output × DataFrame) :=
  (_check_data (Data.frame df) shapeCheck fn subset check_name).map (fun outs => (outs, df))

/-- The process-wide timer state: the recorded start instant, if any. -/
abbrev TimerState := Option Nat

/-- Modelled from the spec: `start_timer` from `timer.py` — record the
current instant as the stopwatch start. The accessor method then returns
`self._obj`. -/
def start_timer (df : DataFrame) (verbose : Bool) (now : Nat) :
    List Output × TimerState × DataFrame :=
  ((if verbose then [Output.print "Timer started"] else []), some now, df)

/-- The `tail` accessor method. -/
def tail (df : DataFrame) (n : Nat) (fn : Data → Data) (subset : Subset) (check_name : Option String) :
    Except VetError (List Output × DataFrame) :=
  (_check_data (Data.frame df) (tailCheck n) fn subset
      (orLabel check_name ("⬇️ Last " ++ toString n ++ " rows"))).map (fun outs => (outs, df))

/-- Format an elapsed number of seconds in the requested unit, or in an
auto-chosen human-friendly unit. -/
def formatElapsed (units : String) (secs : Nat) : String :=
  if units == "seconds" then toString secs ++ " seconds"
  else if units == "minutes" then toString (secs / 60) ++ " minutes"
  else if units == "hours" then toString (secs / 3600) ++ " hours"
  else if secs < 60 then toString secs ++ " seconds"
  else if secs < 3600 then toString (secs / 60) ++ " minutes"
  else toString (secs / 3600) ++ " hours"

/-- Modelled from the spec: `print_time_elapsed` from `timer.py` —
report the delta from the recorded start instant to now, with an explicit
message when the timer was never started. The accessor method then
returns `self._obj`. -/
def print_time_elapsed (df : DataFrame) (check_name : String) (units : String)
    (timer : TimerState) (now : Nat) : List Output × DataFrame :=
  match timer with
  | Option.none => ([Output.print (check_name ++ ": Timer has not been started")], df)
  | some t0 => ([Output.print (check_name ++ ": " ++ formatElapsed units (now - t0))], df)

/-- The `unique` accessor method. -/
def unique (df : DataFrame) (column : Subset) (fn : Data → Data) (check_name : Option String) :
    Except VetError (List Output × DataFrame) :=
  (_check_data (Data.frame df) uniqueCheck fn column
      (orLabel check_name ("🌟 Unique values of " ++ column.pyStr))).map (fun outs => (outs, df))

/-- The `value_counts` accessor method. -/
def value_counts (df : DataFrame) (column : Subset) (max_rows : Nat) (fn : Data → Data)
    (check_name : Option String) : Except VetError (List Output × DataFrame) :=
  (_check_data (Data.frame df) (valueCountsCheck max_rows) fn column
      (orLabel check_name
        (if max_rows ≠ 0 then "🧮 Value counts, first " ++ toString max_rows ++ " values"
         else "🧮 Value counts"))).map (fun outs => (outs, df))

/-- The fixed confirmation literal of `write` (the source omits the
f-string prefix, so the braces are literal text). -/
def wroteFileLiteral : String := "📦 Wrote file \x7bpath\x7d"

/-- The effect part of `write` (lines 270–281): resolve the data, choose
the export encoder by the path's suffix, fail on an unknown extension,
and on success optionally print the confirmation. -/
def writeBody (df : DataFrame) (path : String) (fn : Data → Data) (subset : Subset)
    (verbose : Bool) (opts : Options) : Except VetError (List Output) := do
  let data ← _modify_data (Data.frame df) fn subset
  let ev ←
    if pyEndsWith path ".xls" || pyEndsWith path ".xlsx" then
      pure (Output.writeFile "excel" path data)
    else if pyEndsWith path ".csv" then
      pure (Output.writeFile "csv" path data)
    else if pyEndsWith path ".parquet" then
      pure (Output.writeFile "parquet" path data)
    else
      Except.error (VetError.attributeError
        ("Can\x27t write data to file. Unknown file extension in: " ++ path ++ ". "))
  pure ([ev] ++ (if verbose then [Output.print (_filter_emojis opts wroteFileLiteral)] else []))

/-- The `write` accessor method. -/
def write (df : DataFrame) (path : String) (fn : Data → Data) (subset : Subset)
    (verbose : Bool) (opts : Options) : Except VetError (List Output × DataFrame) :=
  (writeBody df path fn subset verbose opts).map (fun outs => (outs, df))

/-- The chain-return property: whenever the operation produces a value,
the dataset component of that value is the input dataset itself. -/
def returnsInput {α : Type} (e : Except VetError (α × DataFrame)) (df : DataFrame) : Prop :=
  e.map Prod.snd = e.map (fun _ => df)

/-- A small demo table. -/
def demoDF : DataFrame := ⟨["a", "b"], [[some 1, some 2]]⟩

/-- The spec's null-count example: columns `[a,b]`, rows `[(1,None),(2,2)]`. -/
def demoNull : DataFrame := ⟨["a", "b"], [[some 1, Option.none], [some 2, some 2]]⟩

/-- The spec's duplicate-count example: rows `[(1,1),(1,1),(2,2)]`. -/
def demoDup : DataFrame := ⟨["a", "b"], [[some 1, some 1], [some 1, some 1], [some 2, some 2]]⟩

/-- An empty table (no rows). -/
def demoEmpty : DataFrame := ⟨["a", "b"], []⟩

/-- The spec's example condition `lambda d: len(d) > 0`. -/
def condLenPos : Condition :=
  Condition.callable (fun d => decide (0 < pyLenData d)) "lambda d: len(d) > 0"

/-! ## Helper lemmas -/

/-- Chain-return: mapping the effects into a pair with the input dataset
always returns that dataset. -/
theorem ret_returnsInput {β : Type} (df : DataFrame) (e : Except VetError β) :
    returnsInput (e.map (fun x => (x, df))) df := by
  cases e <;> rfl

/-- Chain-return, pointwise form: a successful result's dataset component
is the input dataset. -/
theorem ret_ok_snd {β : Type} {df : DataFrame} {e : Except VetError β}
    {r : β × DataFrame} (h : e.map (fun x => (x, df)) = Except.ok r) : r.2 = df := by
  cases e with
  | error a => simp [Except.map] at h
  | ok b =>
      simp [Except.map] at h
      rw [← h]

/-- Computation rule: binding a successful `Except` applies the
continuation. -/
theorem exc_bind_ok {ε α β : Type} (a : α) (f : α → Except ε β) :
    ((Except.ok a : Except ε α) >>= f) = f a := rfl

/-- Computation rule: binding a failed `Except` propagates the error. -/
theorem exc_bind_err {ε α β : Type} (e : ε) (f : α → Except ε β) :
    ((Except.error e : Except ε α) >>= f) = Except.error e := rfl

/-- Computation rule: `pure` builds a successful `Except`. -/
theorem exc_pure {ε α : Type} (a : α) : (pure a : Except ε α) = Except.ok a := rfl

/-- Computation rule: mapping over a successful `Except`. -/
theorem exc_map_ok {ε α β : Type} (f : α → β) (a : α) :
    Except.map f (Except.ok a : Except ε α) = Except.ok (f a) := rfl

/-- Computation rule: mapping over a failed `Except`. -/
theorem exc_map_err {ε α β : Type} (f : α → β) (e : ε) :
    Except.map f (Except.error e : Except ε α) = Except.error e := rfl

/-- Inverting the chain-return map on a successful result. -/
theorem ret_ok_inv {β : Type} {df : DataFrame} {e : Except VetError β}
    {outs : β} {df2 : DataFrame}
    (h : e.map (fun x => (x, df)) = Except.ok (outs, df2)) : e = Except.ok outs := by
  cases e with
  | error a => simp [Except.map] at h
  | ok b =>
      simp [Except.map] at h
      rw [h.1]

/-- An infix of a list is an infix of that list extended on the right. -/
theorem infix_ext_right {α : Type} {l m : List α} (n : List α) (h : l <:+: m) :
    l <:+: m ++ n := by
  obtain ⟨u, t, rfl⟩ := h
  exact ⟨u, t ++ n, by simp⟩

/-- An infix of a list is an infix of that list extended on the left. -/
theorem infix_ext_left {α : Type} {l n : List α} (m : List α) (h : l <:+: n) :
    l <:+: m ++ n := by
  obtain ⟨u, t, rfl⟩ := h
  exact ⟨m ++ u, t, by simp⟩

/-- Every member of the joined list occurs as an infix of the join. -/
theorem joinWith_mem_substring (pre post sep : String) (x : String) :
    ∀ (l : List String), x ∈ l → x.data <:+: (joinWith pre post sep l).data := by
  intro l
  induction l with
  | nil => intro h; cases h
  | cons y t ih =>
      intro hmem
      cases t with
      | nil =>
          have hx : x = y := by
            cases hmem with
            | head => rfl
            | tail _ h => cases h
          subst hx
          simp only [joinWith, String.data_append]
          exact List.infix_append _ _ _
      | cons z rest =>
          simp only [joinWith, String.data_append]
          cases hmem with
          | head =>
              exact infix_ext_right _ (infix_ext_right _ (List.infix_append _ _ _))
          | tail _ h =>
              exact infix_ext_left _ (ih h)

/-- Two path suffixes of the same path compare by length. -/
theorem suffix_conflict {p a b : String} (ha : pyEndsWith p a = true)
    (hb : pyEndsWith p b = true) (hle : a.data.length ≤ b.data.length) :
    a.data.isSuffixOf b.data = true :=
  List.isSuffixOf_iff_suffix.mpr
    (List.suffix_of_suffix_length_le
      (List.isSuffixOf_iff_suffix.mp ha) (List.isSuffixOf_iff_suffix.mp hb) hle)

/-- A path accepted by one of the export encoders contains a dot. -/
theorem endsWith_has_dot {p sfx : String} (h : pyEndsWith p sfx = true)
    (hdot : ('.' : Char) ∈ sfx.data) : ('.' : Char) ∈ p.data :=
  (List.isSuffixOf_iff_suffix.mp h).subset hdot

/-- C1: every accessor operation — `set_format`, `reset_format`,
`assert_data`, `describe`, `columns`, `dtypes`, `evaluate`, `head`,
`hist`, `info`, `memory_usage`, `ncols`, `ndups`, `nnulls`, `nrows`,
`nunique`, `plot`, `print`, `shape`, `start_timer`, `tail`,
`print_time_elapsed`, `unique`, `value_counts`, `write` — returns, on
every input dataset, a value that is the dataset the accessor was
constructed with; the operations are pure on the dataset (all derived
values are separate `Output` events), so the dataset's contents and
schema are unaltered. -/
theorem c1_every_accessor_returns_the_input_dataset :
    (∀ df kwargs opts, returnsInput (set_format df kwargs opts) df)
  ∧ (∀ df, (reset_format df).2 = df)
  ∧ (∀ df c sub ec pm fm re v opts, returnsInput (assert_data df c sub ec pm fm re v opts) df)
  ∧ (∀ df fn sub cn, returnsInput (describe df fn sub cn) df)
  ∧ (∀ df fn sub cn, returnsInput (columns df fn sub cn) df)
  ∧ (∀ df fn sub cn, returnsInput (dtypes df fn sub cn) df)
  ∧ (∀ df fn sub cn, returnsInput (evaluate df fn sub cn) df)
  ∧ (∀ df n fn sub cn, returnsInput (head df n fn sub cn) df)
  ∧ (∀ df fn sub cn, returnsInput (hist df fn sub cn) df)
  ∧ (∀ df fn sub cn opts, returnsInput (info df fn sub cn opts) df)
  ∧ (∀ df fn sub cn, returnsInput (memory_usage df fn sub cn) df)
  ∧ (∀ df fn sub cn, returnsInput (ncols df fn sub cn) df)
  ∧ (∀ df fn sub cn, returnsInput (ndups df fn sub cn) df)
  ∧ (∀ df fn sub bc cn opts, returnsInput (nnulls df fn sub bc cn opts) df)
  ∧ (∀ df fn sub cn, returnsInput (nrows df fn sub cn) df)
  ∧ (∀ df c fn cn, returnsInput (nunique df c fn cn) df)
  ∧ (∀ df fn sub cn tk opts, returnsInput (plot df fn sub cn tk opts) df)
  ∧ (∀ df t fn sub cn mr, returnsInput (print df t fn sub cn mr) df)
  ∧ (∀ df fn sub cn, returnsInput (shape df fn sub cn) df)
  ∧ (∀ df v now, (start_timer df v now).2.2 = df)
  ∧ (∀ df n fn sub cn, returnsInput (tail df n fn sub cn) df)
  ∧ (∀ df cn u timer now, (print_time_elapsed df cn u timer now).2 = df)
  ∧ (∀ df c fn cn, returnsInput (unique df c fn cn) df)
  ∧ (∀ df c mr fn cn, returnsInput (value_counts df c mr fn cn) df)
  ∧ (∀ df p fn sub v opts, returnsInput (write df p fn sub v opts) df) := by
  refine ⟨?_, ?_, ?_, ?_, ?_, ?_, ?_, ?_, ?_, ?_, ?_, ?_, ?_, ?_, ?_, ?_, ?_,
    ?_, ?_, ?_, ?_, ?_, ?_, ?_, ?_⟩
  · exact fun df kwargs opts => ret_returnsInput df (set_format_go opts kwargs)
  · exact fun df => rfl
  · exact fun df c sub ec pm fm re v opts =>
      ret_returnsInput df (assertBody df c sub ec pm fm re v opts)
  · exact fun df fn sub cn =>
      ret_returnsInput df (_check_data (Data.frame df) describeCheck fn sub cn)
  · exact fun df fn sub cn =>
      ret_returnsInput df (_check_data (Data.frame df) columnsCheck fn sub cn)
  · exact fun df fn sub cn =>
      ret_returnsInput df (_check_data (Data.frame df) dtypesCheck fn sub cn)
  · exact fun df fn sub cn =>
      ret_returnsInput df (_check_data (Data.frame df) evaluateCheck fn sub cn)
  · exact fun df n fn sub cn =>
      ret_returnsInput df (_check_data (Data.frame df) (headCheck n) fn sub
        (orLabel cn ("⬆️ First " ++ toString n ++ " rows")))
  · exact fun df fn sub cn => ret_returnsInput df (histBody df fn sub cn)
  · exact fun df fn sub cn opts => ret_returnsInput df (infoBody df fn sub cn opts)
  · exact fun df fn sub cn =>
      ret_returnsInput df (_check_data (Data.frame df) memoryUsageCheck fn sub cn)
  · exact fun df fn sub cn =>
      ret_returnsInput df (_check_data (Data.frame df) ncolsCheck fn sub cn)
  · exact fun df fn sub cn =>
      ret_returnsInput df (_check_data (Data.frame df) ndupsCheck fn sub
        (orLabel cn
          (if sub.truthy then "👯‍♂️ Rows with duplication in " ++ sub.pyStr
           else "👯‍♂️ Duplicated rows")))
  · exact fun df fn sub bc cn opts => ret_returnsInput df (nnullsBody df fn sub bc cn opts)
  · exact fun df fn sub cn =>
      ret_returnsInput df (_check_data (Data.frame df) nrowsCheck fn sub cn)
  · exact fun df c fn cn =>
      ret_returnsInput df (_check_data (Data.frame df) nuniqueCheck fn c
        (orLabel cn ("🌟 Unique values in " ++ c.pyStr)))
  · exact fun df fn sub cn tk opts => ret_returnsInput df (plotBody df fn sub cn tk opts)
  · exact fun df t fn sub cn mr => ret_returnsInput df (printBody df t fn sub cn mr)
  · exact fun df fn sub cn =>
      ret_returnsInput df (_check_data (Data.frame df) shapeCheck fn sub cn)
  · exact fun df v now => rfl
  · exact fun df n fn sub cn =>
      ret_returnsInput df (_check_data (Data.frame df) (tailCheck n) fn sub
        (orLabel cn ("⬇️ Last " ++ toString n ++ " rows")))
  · intro df cn u timer now; cases timer <;> rfl
  · exact fun df c fn cn =>
      ret_returnsInput df (_check_data (Data.frame df) uniqueCheck fn c
        (orLabel cn ("🌟 Unique values of " ++ c.pyStr)))
  · exact fun df c mr fn cn =>
      ret_returnsInput df (_check_data (Data.frame df) (valueCountsCheck mr) fn c
        (orLabel cn
          (if mr ≠ 0 then "🧮 Value counts, first " ++ toString mr ++ " values"
           else "🧮 Value counts")))
  · exact fun df p fn sub v opts => ret_returnsInput df (writeBody df p fn sub v opts)

/-- C2: when `assert_data` evaluates the condition to a falsy result on
the (subset-resolved) data, then with `raise_exception` it raises the
`exception_class` (default the data-quality `DataError`) with a message
containing the fail message and the condition's textual representation,
and without `raise_exception` it does not raise, prints the decorated
fail message, and still returns the original data unchanged. -/
theorem c2_assert_data_falsy (df : DataFrame) (c : Condition) (sub : Subset)
    (d : Data) (cstr : String) (ec pm fm : String) (v : Bool) (opts : Options)
    (hres : assertResolve df sub = Except.ok d)
    (heval : c.evalOn d = Except.ok (false, cstr)) :
    assert_data df c sub ec pm fm true v opts
        = Except.error (VetError.raised ec (fm ++ ": " ++ cstr))
    ∧ fm.data <:+: (fm ++ ": " ++ cstr).data
    ∧ cstr.data <:+: (fm ++ ": " ++ cstr).data
    ∧ assert_data df c sub ec pm fm false v opts
        = Except.ok
            (Output.print (_format_fail_message opts fm ++ ": " ++ cstr) ::
              (if v then [Output.print (_format_success_message opts pm ++ ": " ++ cstr)]
               else []),
             df) := by
  refine ⟨?_, ?_, ?_, ?_⟩
  · simp [assert_data, assertBody, hres, heval, exc_bind_ok, exc_bind_err, exc_pure,
      exc_map_ok, exc_map_err]
  · rw [String.data_append, String.data_append]
    exact infix_ext_right _ (infix_ext_right _ (List.infix_refl _))
  · rw [String.data_append]
    exact infix_ext_left _ (List.infix_refl _)
  · simp [assert_data, assertBody, hres, heval, exc_bind_ok, exc_bind_err, exc_pure,
      exc_map_ok, exc_map_err]

/-- C2 witness: the spec's example — the condition `lambda d: len(d) > 0`
on an empty table raises the default data-quality error carrying the fail
message and the condition text, and with `raise_exception` off it prints
the decorated fail message and returns the data. -/
theorem c2_assert_data_falsy_witness :
    assert_data demoEmpty condLenPos Subset.none dataErrorClass passMessageDefault
        failMessageDefault true false defaultOptions
      = Except.error
          (VetError.raised dataErrorClass
            (failMessageDefault ++ ": " ++ "lambda d: len(d) > 0"))
    ∧ assert_data demoEmpty condLenPos Subset.none dataErrorClass passMessageDefault
        failMessageDefault false false defaultOptions
      = Except.ok
          ([Output.print
              (_format_fail_message defaultOptions failMessageDefault ++ ": " ++
                "lambda d: len(d) > 0")],
           demoEmpty) :=
  ⟨(c2_assert_data_falsy demoEmpty condLenPos Subset.none (Data.frame demoEmpty)
      "lambda d: len(d) > 0" dataErrorClass passMessageDefault failMessageDefault
      false defaultOptions rfl rfl).1,
   (c2_assert_data_falsy demoEmpty condLenPos Subset.none (Data.frame demoEmpty)
      "lambda d: len(d) > 0" dataErrorClass passMessageDefault failMessageDefault
      false defaultOptions rfl rfl).2.2.2⟩

/-- C3: contrary to the claim, the source prints the decorated pass
message even when the condition is falsy, provided `raise_exception` is
off and `verbose` is on — the `if verbose` block is not guarded by the
truthiness of the result (no `else`), so on this failing input the fail
message and the pass message are both printed. -/
theorem c3_pass_message_printed_on_falsy_condition :
    assert_data demoEmpty condLenPos Subset.none dataErrorClass passMessageDefault
        failMessageDefault false true defaultOptions
      = Except.ok
          ([Output.print
              (_format_fail_message defaultOptions failMessageDefault ++ ": " ++
                "lambda d: len(d) > 0"),
            Output.print
              (_format_success_message defaultOptions passMessageDefault ++ ": " ++
                "lambda d: len(d) > 0")],
           demoEmpty) := by
  rfl

/-- C8: a condition argument that is neither a callable nor a textual
expression makes `assert_data` fail with a type-mismatch `TypeError`
(once the subset resolves, and in particular for any falsy subset),
without evaluating any condition, raising any data-quality error, or
printing any pass/fail message. -/
theorem c8_condition_type_error (df : DataFrame) (t : String) (sub : Subset)
    (ec pm fm : String) (re v : Bool) (opts : Options) :
    (sub.truthy = false →
      assert_data df (Condition.other t) sub ec pm fm re v opts
        = Except.error
            (VetError.typeError ("Argument \x60condition\x60 is of unexpected type " ++ t)))
  ∧ (∀ d, assertResolve df sub = Except.ok d →
      assert_data df (Condition.other t) sub ec pm fm re v opts
        = Except.error
            (VetError.typeError ("Argument \x60condition\x60 is of unexpected type " ++ t))) := by
  constructor
  · intro h
    simp [assert_data, assertBody, assertResolve, h, Condition.evalOn, exc_bind_ok,
      exc_bind_err, exc_pure, exc_map_ok, exc_map_err]
  · intro d hres
    simp [assert_data, assertBody, hres, Condition.evalOn, exc_bind_ok, exc_bind_err,
      exc_pure, exc_map_ok, exc_map_err]

/-- C8 witness: an unsupported condition type (here an `int`) on a
concrete table fails with the type-mismatch error, both for the falsy
subset and for a resolved truthy subset. -/
theorem c8_condition_type_error_witness :
    assert_data demoDF (Condition.other "int") Subset.none dataErrorClass
        passMessageDefault failMessageDefault true false defaultOptions
      = Except.error
          (VetError.typeError ("Argument \x60condition\x60 is of unexpected type " ++ "int"))
    ∧ assert_data demoDF (Condition.other "int") (Subset.col "a") dataErrorClass
        passMessageDefault failMessageDefault true false defaultOptions
      = Except.error
          (VetError.typeError ("Argument \x60condition\x60 is of unexpected type " ++ "int")) :=
  ⟨(c8_condition_type_error demoDF "int" Subset.none dataErrorClass passMessageDefault
      failMessageDefault true false defaultOptions).1 (by decide),
   (c8_condition_type_error demoDF "int" (Subset.col "a") dataErrorClass passMessageDefault
      failMessageDefault true false defaultOptions).2
     (Data.series ⟨"a", [some 1]⟩) rfl⟩

/-- C9: every falsy subset value — `None`, the empty string, the empty
column list — is treated by `assert_data` as no subset at all: the
condition is evaluated against the whole dataset, and the call behaves
exactly as with no subset. -/
theorem c9_falsy_subset_means_whole_dataset (df : DataFrame) (c : Condition)
    (ec pm fm : String) (re v : Bool) (opts : Options) :
    (Subset.none.truthy = false ∧ (Subset.col "").truthy = false
      ∧ (Subset.cols []).truthy = false)
  ∧ (∀ s : Subset, s.truthy = false → assertResolve df s = Except.ok (Data.frame df))
  ∧ (∀ s : Subset, s.truthy = false →
      assert_data df c s ec pm fm re v opts
        = assert_data df c Subset.none ec pm fm re v opts) := by
  refine ⟨by decide, ?_, ?_⟩
  · intro s h
    simp [assertResolve, h]
  · intro s h
    have h0 : Subset.none.truthy = false := rfl
    simp [assert_data, assertBody, assertResolve, h, h0]

/-- C9 witness: an empty-string subset resolves to the whole dataset and
behaves as no subset on a concrete call, and likewise the empty column
list. -/
theorem c9_falsy_subset_means_whole_dataset_witness :
    (Subset.col "").truthy = false
    ∧ assertResolve demoNull (Subset.col "") = Except.ok (Data.frame demoNull)
    ∧ assertResolve demoNull (Subset.cols []) = Except.ok (Data.frame demoNull)
    ∧ assert_data demoNull condLenPos (Subset.col "") dataErrorClass passMessageDefault
          failMessageDefault true false defaultOptions
        = assert_data demoNull condLenPos Subset.none dataErrorClass passMessageDefault
          failMessageDefault true false defaultOptions :=
  ⟨by decide,
    (c9_falsy_subset_means_whole_dataset demoNull condLenPos dataErrorClass
      passMessageDefault failMessageDefault true false defaultOptions).2.1
      (Subset.col "") (by decide),
    (c9_falsy_subset_means_whole_dataset demoNull condLenPos dataErrorClass
      passMessageDefault failMessageDefault true false defaultOptions).2.1
      (Subset.cols []) (by decide),
    (c9_falsy_subset_means_whole_dataset demoNull condLenPos dataErrorClass
      passMessageDefault failMessageDefault true false defaultOptions).2.2
      (Subset.col "") (by decide)⟩

/-- C4: `write` dispatches on the path's suffix — `.xls`/`.xlsx` invoke
the spreadsheet encoder, `.csv` the delimited-text encoder, `.parquet`
the columnar-binary encoder, and any other suffix fails with the
unsupported-extension error, producing no write event; whenever a value
is returned it is the original data. -/
theorem c4_write_dispatches_on_suffix (df : DataFrame) (path : String) (fn : Data → Data)
    (sub : Subset) (v : Bool) (opts : Options) (d : Data)
    (hres : _modify_data (Data.frame df) fn sub = Except.ok d) :
    ((pyEndsWith path ".xls" = true ∨ pyEndsWith path ".xlsx" = true) →
      write df path fn sub v opts
        = Except.ok
            (Output.writeFile "excel" path d ::
              (if v then [Output.print (_filter_emojis opts wroteFileLiteral)] else []), df))
  ∧ (pyEndsWith path ".csv" = true →
      write df path fn sub v opts
        = Except.ok
            (Output.writeFile "csv" path d ::
              (if v then [Output.print (_filter_emojis opts wroteFileLiteral)] else []), df))
  ∧ (pyEndsWith path ".parquet" = true →
      write df path fn sub v opts
        = Except.ok
            (Output.writeFile "parquet" path d ::
              (if v then [Output.print (_filter_emojis opts wroteFileLiteral)] else []), df))
  ∧ (pyEndsWith path ".xls" = false → pyEndsWith path ".xlsx" = false →
     pyEndsWith path ".csv" = false → pyEndsWith path ".parquet" = false →
      write df path fn sub v opts
        = Except.error
            (VetError.attributeError
              ("Can\x27t write data to file. Unknown file extension in: " ++ path ++ ". ")))
  ∧ (∀ r, write df path fn sub v opts = Except.ok r → r.2 = df) := by
  refine ⟨?_, ?_, ?_, ?_, ?_⟩
  · rintro (h | h) <;>
      simp [write, writeBody, hres, h, exc_bind_ok, exc_bind_err, exc_pure, exc_map_ok]
  · intro h
    have h1 : pyEndsWith path ".xls" = false := by
      cases hx : pyEndsWith path ".xls"
      · rfl
      · exact absurd (suffix_conflict hx h (by decide)) (by decide)
    have h2 : pyEndsWith path ".xlsx" = false := by
      cases hx : pyEndsWith path ".xlsx"
      · rfl
      · exact absurd (suffix_conflict h hx (by decide)) (by decide)
    simp [write, writeBody, hres, h, h1, h2, exc_bind_ok, exc_bind_err, exc_pure, exc_map_ok]
  · intro h
    have h1 : pyEndsWith path ".xls" = false := by
      cases hx : pyEndsWith path ".xls"
      · rfl
      · exact absurd (suffix_conflict hx h (by decide)) (by decide)
    have h2 : pyEndsWith path ".xlsx" = false := by
      cases hx : pyEndsWith path ".xlsx"
      · rfl
      · exact absurd (suffix_conflict hx h (by decide)) (by decide)
    have h3 : pyEndsWith path ".csv" = false := by
      cases hx : pyEndsWith path ".csv"
      · rfl
      · exact absurd (suffix_conflict hx h (by decide)) (by decide)
    simp [write, writeBody, hres, h, h1, h2, h3, exc_bind_ok, exc_bind_err, exc_pure,
      exc_map_ok]
  · intro h1 h2 h3 h4
    simp [write, writeBody, hres, h1, h2, h3, h4, exc_bind_ok, exc_bind_err, exc_pure,
      exc_map_ok, exc_map_err]
  · intro r h
    unfold write at h
    exact ret_ok_snd h

/-- C4 witness: a `.csv` path routes to the delimited-text encoder, an
`.xls` path to the spreadsheet encoder, a `.parquet` path to the
columnar-binary encoder, and an `.xyz` path fails with the
unsupported-extension error. -/
theorem c4_write_dispatches_on_suffix_witness :
    write demoDF "out.csv" idD Subset.none false defaultOptions
      = Except.ok ([Output.writeFile "csv" "out.csv" (Data.frame demoDF)], demoDF)
    ∧ write demoDF "out.xls" idD Subset.none false defaultOptions
      = Except.ok ([Output.writeFile "excel" "out.xls" (Data.frame demoDF)], demoDF)
    ∧ write demoDF "out.parquet" idD Subset.none false defaultOptions
      = Except.ok ([Output.writeFile "parquet" "out.parquet" (Data.frame demoDF)], demoDF)
    ∧ write demoDF "out.xyz" idD Subset.none false defaultOptions
      = Except.error
          (VetError.attributeError
            ("Can\x27t write data to file. Unknown file extension in: " ++ "out.xyz" ++ ". "))
    ∧ Prod.snd ([Output.writeFile "csv" "out.csv" (Data.frame demoDF)], demoDF) = demoDF :=
  ⟨(c4_write_dispatches_on_suffix demoDF "out.csv" idD Subset.none false defaultOptions
      (Data.frame demoDF) rfl).2.1 (by decide),
   (c4_write_dispatches_on_suffix demoDF "out.xls" idD Subset.none false defaultOptions
      (Data.frame demoDF) rfl).1 (Or.inl (by decide)),
   (c4_write_dispatches_on_suffix demoDF "out.parquet" idD Subset.none false defaultOptions
      (Data.frame demoDF) rfl).2.2.1 (by decide),
   (c4_write_dispatches_on_suffix demoDF "out.xyz" idD Subset.none false defaultOptions
      (Data.frame demoDF) rfl).2.2.2.1 (by decide) (by decide) (by decide) (by decide),
   (c4_write_dispatches_on_suffix demoDF "out.csv" idD Subset.none false defaultOptions
      (Data.frame demoDF) rfl).2.2.2.2
     ([Output.writeFile "csv" "out.csv" (Data.frame demoDF)], demoDF)
     ((c4_write_dispatches_on_suffix demoDF "out.csv" idD Subset.none false defaultOptions
        (Data.frame demoDF) rfl).2.1 (by decide))⟩

/-- Successful `writeBody` runs end in one export event for one of the
three recognized suffixes, followed by the verbose confirmation. -/
theorem writeBody_ok_cases {df : DataFrame} {path : String} {fn : Data → Data}
    {sub : Subset} {v : Bool} {opts : Options} {outs : List Output}
    (h : writeBody df path fn sub v opts = Except.ok outs) :
    (pyEndsWith path ".xls" = true ∨ pyEndsWith path ".xlsx" = true
      ∨ pyEndsWith path ".csv" = true ∨ pyEndsWith path ".parquet" = true)
    ∧ ∃ k d, outs
        = Output.writeFile k path d ::
            (if v then [Output.print (_filter_emojis opts wroteFileLiteral)] else []) := by
  unfold writeBody at h
  cases hm : _modify_data (Data.frame df) fn sub with
  | error e =>
      rw [hm] at h
      simp [exc_bind_err] at h
  | ok data =>
      rw [hm, exc_bind_ok] at h
      by_cases h1 : (pyEndsWith path ".xls" || pyEndsWith path ".xlsx") = true
      · rw [if_pos h1] at h
        simp only [exc_pure, exc_bind_ok, Except.ok.injEq, List.singleton_append] at h
        refine ⟨?_, "excel", data, h.symm⟩
        rcases Bool.or_eq_true_iff.mp h1 with hx | hx
        · exact Or.inl hx
        · exact Or.inr (Or.inl hx)
      · rw [if_neg h1] at h
        by_cases h2 : pyEndsWith path ".csv" = true
        · rw [if_pos h2] at h
          simp only [exc_pure, exc_bind_ok, Except.ok.injEq, List.singleton_append] at h
          exact ⟨Or.inr (Or.inr (Or.inl h2)), "csv", data, h.symm⟩
        · rw [if_neg h2] at h
          by_cases h3 : pyEndsWith path ".parquet" = true
          · rw [if_pos h3] at h
            simp only [exc_pure, exc_bind_ok, Except.ok.injEq, List.singleton_append] at h
            exact ⟨Or.inr (Or.inr (Or.inr h3)), "parquet", data, h.symm⟩
          · rw [if_neg h3, exc_bind_err] at h
            cases h

/-- C10: whenever `write` succeeds with `verbose`, the confirmation it
prints is the fixed, path-independent, emoji-filtered literal
`📦 Wrote file {path}` (the source omits the f-string prefix), and the
printed message never contains the actual destination path. -/
theorem c10_write_verbose_message (df : DataFrame) (path : String) (fn : Data → Data)
    (sub : Subset) (opts : Options) (outs : List Output) (df2 : DataFrame)
    (h : write df path fn sub true opts = Except.ok (outs, df2)) :
    Output.print (_filter_emojis opts wroteFileLiteral) ∈ outs
    ∧ (∀ m, Output.print m ∈ outs → m = _filter_emojis opts wroteFileLiteral)
    ∧ ¬ (path.data <:+: (_filter_emojis opts wroteFileLiteral).data) := by
  have hb : writeBody df path fn sub true opts = Except.ok outs := by
    unfold write at h
    exact ret_ok_inv h
  obtain ⟨hsuf, k, d, houts⟩ := writeBody_ok_cases hb
  subst houts
  refine ⟨by simp, ?_, ?_⟩
  · intro m hm
    simp at hm
    exact hm
  · intro hinf
    have hdot : ('.' : Char) ∈ path.data := by
      rcases hsuf with hx | hx | hx | hx
      · exact endsWith_has_dot hx (by decide)
      · exact endsWith_has_dot hx (by decide)
      · exact endsWith_has_dot hx (by decide)
      · exact endsWith_has_dot hx (by decide)
    have hsub : ('.' : Char) ∈ (_filter_emojis opts wroteFileLiteral).data := hinf.subset hdot
    have hlit : ('.' : Char) ∈ wroteFileLiteral.data := by
      unfold _filter_emojis at hsub
      by_cases he : opts.emojisOn = true
      · rwa [if_pos he] at hsub
      · rw [if_neg he] at hsub
        have hsub2 : ('.' : Char) ∈ wroteFileLiteral.data.filter (fun c => !isDecorative c) :=
          hsub
        exact (List.filter_subset' _) hsub2
    exact absurd hlit (by decide)

/-- C10 witness: on a concrete successful verbose write the printed
confirmation is the fixed literal and does not contain the path. -/
theorem c10_write_verbose_message_witness :
    Output.print (_filter_emojis defaultOptions wroteFileLiteral)
      ∈ [Output.writeFile "csv" "out.csv" (Data.frame demoDF),
         Output.print (_filter_emojis defaultOptions wroteFileLiteral)]
    ∧ ¬ ("out.csv".data <:+: (_filter_emojis defaultOptions wroteFileLiteral).data) :=
  ⟨(c10_write_verbose_message demoDF "out.csv" idD Subset.none defaultOptions
      [Output.writeFile "csv" "out.csv" (Data.frame demoDF),
       Output.print (_filter_emojis defaultOptions wroteFileLiteral)] demoDF rfl).1,
   (c10_write_verbose_message demoDF "out.csv" idD Subset.none defaultOptions
      [Output.writeFile "csv" "out.csv" (Data.frame demoDF),
       Output.print (_filter_emojis defaultOptions wroteFileLiteral)] demoDF rfl).2.2⟩

/-- C5 counterexample: on the spec's example table — columns `[a,b]`,
rows `[(1,None),(2,2)]` — the per-column null counts displayed by
`nnulls` with `by_column=True` are `{a:0, b:1}`, not the claimed
`{a:1, b:0}`. -/
theorem c5_nnulls_counterexample :
    nnulls demoNull idD Subset.none true Option.none defaultOptions
      = Except.ok
          ([Output.print "",
            Output.display (some "👻 Rows with NaNs") (RValue.pairs [("a", 0), ("b", 1)])],
           demoNull)
    ∧ RValue.pairs [("a", (0 : Nat)), ("b", 1)] ≠ RValue.pairs [("a", 1), ("b", 0)] :=
  ⟨by rfl, by decide⟩

/-- C5 (amended): `nnulls` with `by_column=True` computes the per-column
null counts and with `by_column=False` the number of rows containing a
null in any column; on the example table the counts are `{a:0, b:1}` and
the row count is `1`. -/
theorem c5_nnulls_null_counts (df : DataFrame) (opts : Options) :
    nnulls df idD Subset.none true Option.none opts
      = Except.ok
          ([Output.print "",
            Output.display (some "👻 Rows with NaNs") (RValue.pairs (isnaSumFrame df))], df)
  ∧ nnulls df idD Subset.none false Option.none opts
      = Except.ok
          ([Output.print "",
            Output.print
              (_filter_emojis opts "👻 Rows with NaNs: " ++ toString (rowsWithAnyNull df)
                ++ " out of " ++ toString df.rows.length)], df)
  ∧ isnaSumFrame demoNull = [("a", 0), ("b", 1)]
  ∧ rowsWithAnyNull demoNull = 1 :=
  ⟨rfl, rfl, by decide, by decide⟩

/-- Processing a keyword list containing an unrecognized option always
fails with an `AttributeError`. -/
theorem set_format_go_err (opts : Options) (kwargs : List (String × OptVal))
    (h : ∃ p ∈ kwargs, qualifyOpt p.1 ∉ opts.registered) :
    ∃ msg, set_format_go opts kwargs = Except.error (VetError.attributeError msg) := by
  induction kwargs generalizing opts with
  | nil =>
      rcases h with ⟨p, hp, _⟩
      cases hp
  | cons a rest ih =>
      obtain ⟨arg, value⟩ := a
      by_cases hq : qualifyOpt arg ∈ opts.registered
      · rcases h with ⟨p, hp, hbad⟩
        cases hp with
        | head => exact absurd hq hbad
        | tail _ hrest =>
            have hgo : set_format_go opts ((arg, value) :: rest)
                = set_format_go (opts.setOption (qualifyOpt arg) value) rest := by
              simp [set_format_go, hq]
            rw [hgo]
            exact ih (opts.setOption (qualifyOpt arg) value) ⟨p, hrest, hbad⟩
      · exact ⟨unknownOptionMsg (qualifyOpt arg) opts.registered, by simp [set_format_go, hq]⟩

/-- C6: `set_format` on an unrecognized (namespace-qualified) option name
fails immediately with an error message listing every valid option name
and changes nothing, and any keyword list containing an unrecognized name
fails; a recognized name has its option set. -/
theorem c6_set_format_unknown_option (df : DataFrame) (name : String) (value : OptVal)
    (opts : Options) :
    (qualifyOpt name ∉ opts.registered →
        set_format df [(name, value)] opts
          = Except.error
              (VetError.attributeError (unknownOptionMsg (qualifyOpt name) opts.registered))
        ∧ ∀ r ∈ opts.registered,
            r.data <:+: (unknownOptionMsg (qualifyOpt name) opts.registered).data)
  ∧ (qualifyOpt name ∈ opts.registered →
        set_format df [(name, value)] opts
          = Except.ok (opts.setOption (qualifyOpt name) value, df)
        ∧ (opts.setOption (qualifyOpt name) value).lookup (qualifyOpt name) = some value)
  ∧ (∀ kwargs : List (String × OptVal),
      (∃ p ∈ kwargs, qualifyOpt p.1 ∉ opts.registered) →
      ∃ msg, set_format df kwargs opts = Except.error (VetError.attributeError msg)) := by
  refine ⟨?_, ?_, ?_⟩
  · intro h
    constructor
    · simp [set_format, set_format_go, h, exc_map_err]
    · intro r hr
      simp only [unknownOptionMsg, String.data_append]
      exact infix_ext_right _ (infix_ext_left _ (joinWith_mem_substring _ _ _ _ _ hr))
  · intro h
    constructor
    · simp [set_format, set_format_go, h, exc_map_ok]
    · simp [Options.lookup, Options.setOption, List.find?]
  · intro kwargs h
    obtain ⟨msg, hmsg⟩ := set_format_go_err opts kwargs h
    exact ⟨msg, by simp [set_format, hmsg, exc_map_err]⟩

/-- C6 witness: the unknown option `bogus` is rejected with the message
listing the valid names, and the recognized option `precision` is set. -/
theorem c6_set_format_unknown_option_witness :
    set_format demoDF [("bogus", OptVal.n 3)] defaultOptions
      = Except.error
          (VetError.attributeError
            (unknownOptionMsg (qualifyOpt "bogus") defaultOptions.registered))
    ∧ set_format demoDF [("precision", OptVal.n 3)] defaultOptions
      = Except.ok (defaultOptions.setOption (qualifyOpt "precision") (OptVal.n 3), demoDF) :=
  ⟨((c6_set_format_unknown_option demoDF "bogus" (OptVal.n 3) defaultOptions).1
      (by decide)).1,
   ((c6_set_format_unknown_option demoDF "precision" (OptVal.n 3) defaultOptions).2.1
      (by decide)).1⟩

/-- C7: `ndups` displays the count of rows identical to an earlier row
(the flag of row `i` is set exactly when the row occurs among the first
`i` rows), the spec's example `[(1,1),(1,1),(2,2)]` counts `1`, and when
a truthy subset is given the default label embeds the subset name. -/
theorem c7_ndups_duplicate_count (df : DataFrame) :
    ndups df idD Subset.none Option.none
      = Except.ok
          ([Output.display (some "👯‍♂️ Duplicated rows") (RValue.nat (dupCount df.rows))], df)
  ∧ dupCount demoDup.rows = 1
  ∧ (∀ (l : List (List Cell)) (i : Nat), i < l.length →
      ((dupFlags l).getD i false = true ↔ l.getD i [] ∈ l.take i))
  ∧ (∀ nm : String, nm.data <:+: ("👯‍♂️ Rows with duplication in " ++ (Subset.col nm).pyStr).data)
  ∧ (∀ (nms : List String) (nm : String), nm ∈ nms →
      nm.data <:+: ("👯‍♂️ Rows with duplication in " ++ (Subset.cols nms).pyStr).data)
  ∧ (∀ s : Subset, s.truthy = true →
      ndups df idD s Option.none
        = (_check_data (Data.frame df) ndupsCheck idD s
            (some ("👯‍♂️ Rows with duplication in " ++ s.pyStr))).map
              (fun outs => (outs, df))) := by
  refine ⟨rfl, by decide, ?_, ?_, ?_, ?_⟩
  · intro l i hi
    unfold dupFlags
    rw [List.getD_eq_getElem?_getD, List.getElem?_map, List.getElem?_enum,
      List.getElem?_eq_getElem hi, List.getD_eq_getElem?_getD,
      List.getElem?_eq_getElem hi]
    simp
  · intro nm
    rw [String.data_append]
    exact infix_ext_left _ (List.infix_refl _)
  · intro nms nm hmem
    simp only [Subset.pyStr, String.data_append]
    exact infix_ext_left _
      (infix_ext_right _ (infix_ext_left _ (joinWith_mem_substring _ _ _ _ _ hmem)))
  · intro s h
    simp [ndups, orLabel, strOptTruthy, h]

/-- C7 witness: on the example table the displayed duplicate count is 1,
the duplication flag of the second row is set exactly because it repeats
the first, concrete subset names appear in the default labels, and a
truthy subset routes through the subset-embedding label. -/
theorem c7_ndups_duplicate_count_witness :
    ndups demoDup idD Subset.none Option.none
      = Except.ok
          ([Output.display (some "👯‍♂️ Duplicated rows") (RValue.nat (dupCount demoDup.rows))],
           demoDup)
    ∧ ((dupFlags demoDup.rows).getD 1 false = true ↔
        demoDup.rows.getD 1 [] ∈ demoDup.rows.take 1)
    ∧ "a".data <:+: ("👯‍♂️ Rows with duplication in " ++ (Subset.cols ["a", "b"]).pyStr).data
    ∧ ndups demoDup idD (Subset.col "a") Option.none
      = (_check_data (Data.frame demoDup) ndupsCheck idD (Subset.col "a")
            (some ("👯‍♂️ Rows with duplication in " ++ (Subset.col "a").pyStr))).map
          (fun outs => (outs, demoDup)) :=
  ⟨(c7_ndups_duplicate_count demoDup).1,
   (c7_ndups_duplicate_count demoDup).2.2.1 demoDup.rows 1 (by decide),
   (c7_ndups_duplicate_count demoDup).2.2.2.2.1 ["a", "b"] "a" (by decide),
   (c7_ndups_duplicate_count demoDup).2.2.2.2.2 (Subset.col "a") (by decide)⟩

end PandasVet
